import Mathlib

/-!
Shallow embedding of src/gs_search.py (sort-google-scholar) and verification of
the frozen claims about it. Python strings are embedded as List Char, Python
exceptions as Except errors, machine integers as Int/Nat. Each definition below
cites the source lines it embeds.
-/

/-- Error type covering the Python exceptions raised inside the field extractors:
the spec's NotFound (realised in the source as an UnboundLocalError on the loop
variable out, or as falling through with the initial accumulator), IndexError
from an out-of-range character access, and ValueError from int() on a
non-numeric string. -/
inductive ExtractError
  | notFound
  | indexError
  | valueError
deriving DecidableEq

/-- Clamp one bound of a Python slice: a negative index counts from the end and
is clamped at 0, a nonnegative index is clamped at the length. -/
def pyBound (n : Nat) (i : Int) : Nat :=
  if i < 0 then (i + n).toNat else min i.toNat n

/-- Python slice s[a:b] with step 1, including the negative-index wrap-around
semantics. Empty when the clamped start is at or beyond the clamped stop. -/
def pySlice (s : List Char) (a b : Int) : List Char :=
  (s.drop (pyBound s.length a)).take (pyBound s.length b - pyBound s.length a)

/-- Value of a nonempty all-digit character list read in base 10. -/
def digitsToNat (s : List Char) : Nat :=
  s.foldl (fun a c => a * 10 + (c.toNat - 48)) 0

/-- Python str.isdigit restricted to ASCII: true exactly for a nonempty string
of decimal digits (the wider Unicode digit classes never arise here). -/
def pyIsDigit (s : List Char) : Bool :=
  !s.isEmpty && s.all (fun c => c.isDigit)

/-- Strip leading and trailing spaces, as Python int() does before parsing
(int() also strips other whitespace and allows underscores; neither case is
reachable from the slices taken in this program). -/
def stripSpaces (s : List Char) : List Char :=
  (((s.dropWhile (fun c => c = ' ')).reverse.dropWhile (fun c => c = ' ')).reverse)

/-- Python int(str): optional sign followed by a nonempty digit string after
stripping surrounding whitespace; anything else raises ValueError. -/
def pyInt (s : List Char) : Except ExtractError Int :=
  match stripSpaces s with
  | '-' :: ds => if pyIsDigit ds then Except.ok (-(digitsToNat ds : Int)) else Except.error ExtractError.valueError
  | '+' :: ds => if pyIsDigit ds then Except.ok ((digitsToNat ds : Int)) else Except.error ExtractError.valueError
  | ds => if pyIsDigit ds then Except.ok ((digitsToNat ds : Int)) else Except.error ExtractError.valueError

/-- The marker scanned for by get_citations (src/gs_search.py line 142). -/
def citMarker : List Char := "Cited by ".data

/-- Inner loop of get_citations (src/gs_search.py lines 144-146):
for end in range(init+1, init+6): if content[end] == '<': break.
The scan starts at e = init+1 with fuel 4, so it visits e = init+1 .. init+5;
each visit indexes content[e] and raises IndexError when e is out of range;
when no '<' is met the loop leaves end at its final value init+5. -/
def findEndAux (content : List Char) : Nat → Nat → Except ExtractError Nat
  | fuel, e =>
    if e ≥ content.length then Except.error ExtractError.indexError
    else if content.getD e 'x' = '<' then Except.ok e
    else
      match fuel with
      | 0 => Except.ok e
      | fuel' + 1 => findEndAux content fuel' (e + 1)

/-- Outer loop of get_citations (src/gs_search.py lines 141-147): scan every
index char of content; where content[char:char+9] equals the marker, compute
end with the inner loop and overwrite out with content[init:end]. The fuel
argument rem counts the remaining indices, so the loop visits
i, i+1, ..., i+rem-1; get_citations starts it at i = 0 with rem = length. -/
def citLoop (content : List Char) : Nat → Nat → Option (List Char) → Except ExtractError (Option (List Char))
  | 0, _, out => Except.ok out
  | rem + 1, i, out =>
    if pySlice content (i : Int) ((i : Int) + 9) = citMarker then
      match findEndAux content 4 (i + 10) with
      | Except.error e => Except.error e
      | Except.ok e => citLoop content rem (i + 1) (some (pySlice content ((i : Int) + 9) (e : Int)))
    else
      citLoop content rem (i + 1) out

/-- get_citations (src/gs_search.py lines 139-148). out starts as the integer 0;
when no marker occurrence overwrites it, int(out) returns 0; when the last
occurrence left a string slice, int() parses it (ValueError when malformed). -/
def get_citations (content : List Char) : Except ExtractError Int :=
  match citLoop content content.length 0 none with
  | Except.error e => Except.error e
  | Except.ok none => Except.ok 0
  | Except.ok (some s) => pyInt s

/-- Loop of get_year (src/gs_search.py lines 152-154): at every index holding
a dash, overwrite out with content[char-5:char-1] (Python slice semantics,
including negative wrap-around for char < 5); the last dash wins. -/
def yearLoop (content : List Char) : Nat → Nat → Option (List Char) → Option (List Char)
  | 0, _, out => out
  | rem + 1, i, out =>
    yearLoop content rem (i + 1)
      (if content.getD i ' ' = '-' then some (pySlice content ((i : Int) - 5) ((i : Int) - 1)) else out)

/-- Tail of get_year (src/gs_search.py lines 155-157): if not out.isdigit():
out = 0; return int(out). int() cannot fail on a nonempty all-digit string. -/
def yearOfWindow (out : List Char) : Int :=
  if pyIsDigit out then (digitsToNat out : Int) else 0

/-- get_year (src/gs_search.py lines 151-157). When content has no dash, out is
never assigned and the source raises UnboundLocalError at out.isdigit(); the
spec's error taxonomy names this page-level failure NotFound. -/
def get_year (content : List Char) : Except ExtractError Int :=
  match yearLoop content content.length 0 none with
  | none => Except.error ExtractError.notFound
  | some out => Except.ok (yearOfWindow out)

/-- Helper mirroring the shape of yearLoop but recording only the index of the
last dash seen so far; used to characterise yearLoop. -/
def lastDashLoop (content : List Char) : Nat → Nat → Option Nat → Option Nat
  | 0, _, acc => acc
  | rem + 1, i, acc =>
    lastDashLoop content rem (i + 1)
      (if content.getD i ' ' = '-' then some i else acc)

/-- Index of the last dash of content, or none. -/
def lastDashIdx (content : List Char) : Option Nat :=
  lastDashLoop content content.length 0 none

/-- Loop of get_author (src/gs_search.py lines 177-180): at the first dash,
set out to content[2:char-1] and break; no dash leaves out unassigned. -/
def authorLoop (content : List Char) : Nat → Nat → Option (List Char)
  | 0, _ => none
  | rem + 1, i =>
    if content.getD i ' ' = '-' then some (pySlice content 2 ((i : Int) - 1))
    else authorLoop content rem (i + 1)

/-- get_author (src/gs_search.py lines 176-181). When content has no dash the
source raises UnboundLocalError at return out; the spec calls this NotFound. -/
def get_author (content : List Char) : Except ExtractError (List Char) :=
  match authorLoop content content.length 0 with
  | none => Except.error ExtractError.notFound
  | some out => Except.ok out

/-- Helper mirroring the shape of authorLoop but recording only the index of
the first dash; used to characterise authorLoop. -/
def firstDashLoop (content : List Char) : Nat → Nat → Option Nat
  | 0, _ => none
  | rem + 1, i =>
    if content.getD i ' ' = '-' then some i
    else firstDashLoop content rem (i + 1)

/-- Index of the first dash of content, or none. -/
def firstDashIdx (content : List Char) : Option Nat :=
  firstDashLoop content content.length 0

/-- Modelled from the claim wording of C4 only (not from the source): read the
four characters immediately preceding the last dash, content[i-4:i], as the
year, with the same all-digits-or-0 fallback; no dash fails with NotFound. -/
def extractYearClaim (content : List Char) : Except ExtractError Int :=
  match lastDashIdx content with
  | none => Except.error ExtractError.notFound
  | some i => Except.ok (yearOfWindow (pySlice content ((i : Int) - 4) (i : Int)))

/-- Modelled from the claim wording of C5 only (not from the source): the
substring from offset 2 up to but excluding the first dash, content[2:i];
no dash fails with NotFound. -/
def extractAuthorClaim (content : List Char) : Except ExtractError (List Char) :=
  match firstDashIdx content with
  | none => Except.error ExtractError.notFound
  | some i => Except.ok (pySlice content 2 (i : Int))

/-- get_element (src/gs_search.py lines 184-195), with the driver abstracted as
the sequence finds of per-attempt lookup outcomes (finds k is the result of the
find_element_by_xpath call made by the invocation at depth _count = k; none
models a raised exception). The fuel argument equals attempts - _count, so the
recursion retries while _count < attempts exactly as the source does. The
source calls get_element(driver, xpath, attempts, _count+1) WITHOUT returning
its result and then falls off the end of the function, which Python turns into
returning None; the discarded let below mirrors that dropped recursive result.
The exhausted branch prints a message and likewise returns None. -/
def get_elementAux {α : Type} (finds : Nat → Option α) : Nat → Nat → Option α
  | c, fuel =>
    match finds c with
    | some el => some el
    | none =>
      match fuel with
      | 0 => none
      | f + 1 =>
        let _ := get_elementAux finds (c + 1) f
        none

/-- get_element entry point: defaults in the source are attempts = 5 and
_count = 0. -/
def get_element {α : Type} (finds : Nat → Option α) (attempts c : Nat) : Option α :=
  get_elementAux finds c (attempts - c)

/-- Substring test: does needle occur contiguously inside hay? Embeds the
Python expression needle in hay. -/
def containsSub (needle hay : List Char) : Bool :=
  hay.tails.any (fun t => needle.isPrefixOf t)

/-- ROBOT_KW (src/gs_search.py line 63). -/
def ROBOT_KW : List (List Char) :=
  ["unusual traffic from your computer network".data, "not a robot".data]

/-- Robot-check detection (src/gs_search.py line 264): any keyword occurring
in the Latin-1 decoding of the page body (byte-to-char identity here). -/
def robotDetected (body : List Char) : Bool :=
  ROBOT_KW.any (fun kw => containsSub kw body)

/-- Python str.format restricted to the use in this program: substitute the
positional arguments for the empty-brace fields in order. Every template in
the source contains only complete empty-brace fields and is always given
exactly as many arguments as it has fields, so no other case of format is
reachable. Substituted text is not rescanned, as in Python. -/
def pyFormatList : List Char → List (List Char) → List Char
  | [], _ => []
  | '\x7b' :: '\x7d' :: rest, a :: args => a ++ pyFormatList rest args
  | c :: rest, args => c :: pyFormatList rest args

/-- ARCHIVE_URL (src/gs_search.py line 54), written as the same two-part
concatenation as the source; its keyword field is the query parameter q. -/
def ARCHIVE_URL : List Char :=
  ("https://web.archive.org/web/20210314203256/" ++
    "https://scholar.google.com/scholar?start=\x7b\x7d&q=\x7b\x7d&hl=en&as_sdt=0,5").data

/-- GSCHOLAR_URL (src/gs_search.py line 55); its keyword field is the query
parameter as_q, not q. -/
def GSCHOLAR_URL : List Char :=
  ("https://scholar.google.com/scholar?start=\x7b\x7d&as_q=\x7b\x7d&hl=en&as_sdt=0,5").data

/-- AS_PUBLICATION_URL (src/gs_search.py line 58). -/
def AS_PUBLICATION_URL : List Char := ("&as_publication=\x7b\x7d").data

/-- STARTYEAR_URL (src/gs_search.py line 61). -/
def STARTYEAR_URL : List Char := ("&as_ylo=\x7b\x7d").data

/-- ENDYEAR_URL (src/gs_search.py line 62). -/
def ENDYEAR_URL : List Char := ("&as_yhi=\x7b\x7d").data

/-- GSCHOLAR_MAIN_URL construction in main (src/gs_search.py lines 220-233):
pick the archive or live base, then append the publication suffix when the
publication filter is truthy and different from "all" (the empty string stands
for the Python value False), the as_ylo suffix when start_year is truthy
(nonzero), and the as_yhi suffix when end_year differs from the current year. -/
def gscholarMainUrl (archive : Bool) (publication : String) (start_year end_year now_year : Int) : List Char :=
  let u := if archive then ARCHIVE_URL else GSCHOLAR_URL
  let u := if publication ≠ "all" ∧ publication ≠ "" then u ++ pyFormatList AS_PUBLICATION_URL [publication.data] else u
  let u := if start_year ≠ 0 then u ++ pyFormatList STARTYEAR_URL [(toString start_year).data] else u
  if end_year ≠ now_year then u ++ pyFormatList ENDYEAR_URL [(toString end_year).data] else u

/-- keyword.replace(' ', '+') (src/gs_search.py line 254). -/
def plusEncode (kw : String) : List Char :=
  kw.data.map (fun c => if c = ' ' then '+' else c)

/-- Per-offset listing URL (src/gs_search.py line 254):
GSCHOLAR_MAIN_URL.format(str(n), keyword.replace(' ', '+')). -/
def pageUrl (mainUrl : List Char) (n : Nat) (keyword : String) : List Char :=
  pyFormatList mainUrl [(toString n).data, plusEncode keyword]

/-- range(0, number_of_results, 10) (src/gs_search.py line 252). -/
def offsetList (nresults : Nat) : List Nat :=
  (List.range ((nresults + 9) / 10)).map (fun k => k * 10)

/-- One located result block (a div of class gs_r, src/gs_search.py line 276),
carrying the outcomes of the four fallible lookups the per-block code performs:
the href of the anchor under h3 (none when any step of the chained lookup
raises), the text of that anchor, str(div.format_string) handed to
get_citations, and the text of the gs_a byline div handed to get_year and
get_author. -/
structure Block where
  href : Option String
  anchorText : Option String
  fmtStr : Option (List Char)
  byline : Option (List Char)
deriving DecidableEq

/-- The five parallel accumulator lists of main plus the rank list
(src/gs_search.py lines 244-249). rank starts as the one-element list [0]. -/
structure Columns where
  links : List String
  titles : List String
  citations : List Int
  years : List Int
  authors : List String
  rank : List Nat
deriving DecidableEq

/-- Initial accumulators (src/gs_search.py lines 244-249). -/
def initColumns : Columns :=
  { links := [], titles := [], citations := [], years := [], authors := [], rank := [0] }

/-- Per-block body of the parse loop (src/gs_search.py lines 278-306): each of
the five extractions is wrapped in its own try/except and appends exactly one
element, substituting the documented sentinel on failure; then
rank.append(rank[-1] + 1). -/
def processDiv (url : String) (div : Block) (c : Columns) : Columns :=
  { links := c.links ++ [match div.href with
      | some h => h
      | none => "Look manually at: " ++ url],
    titles := c.titles ++ [match div.anchorText with
      | some t => t
      | none => "Could not catch title"],
    citations := c.citations ++ [match div.fmtStr with
      | some s =>
        match get_citations s with
        | Except.ok v => v
        | Except.error _ => 0
      | none => 0],
    years := c.years ++ [match div.byline with
      | some s =>
        match get_year s with
        | Except.ok v => v
        | Except.error _ => 0
      | none => 0],
    authors := c.authors ++ [match div.byline with
      | some s =>
        match get_author s with
        | Except.ok a => String.mk a
        | Except.error _ => "Author not found"
      | none => "Author not found"],
    rank := c.rank ++ [c.rank.getLastD 0 + 1] }

/-- The inner for div in mydivs loop over the blocks of one page. -/
def processDivs (url : String) (divs : List Block) (c : Columns) : Columns :=
  divs.foldl (fun c b => processDiv url b c) c

/-- Aggregation of the parse loop over a crawl's fetched pages, each given as
its originating URL and its located result blocks. -/
def aggregatePages (pages : List (String × List Block)) : Columns :=
  pages.foldl (fun c p => processDivs p.1 p.2 c) initColumns

/-- Total number of located result blocks across the pages. -/
def totalBlocks (pages : List (String × List Block)) : Nat :=
  (pages.map (fun p => p.2.length)).sum

/-- Transport-level failure of session.get (src/gs_search.py line 261), the
requests exception the spec names FetchFailed. -/
inductive FetchError
  | transport
deriving DecidableEq

/-- Per-offset body of the crawl loop (src/gs_search.py lines 252-306), with
the network abstracted as fetch (the outcome of session.get per offset) and
the selenium fallback as sel (some body when get_content_with_selenium
returns, none when it raises and the except at lines 268-270 keeps the
original body). The source wraps NO try/except around session.get itself, so a
fetch error propagates out of the loop and aborts it, which the Except monad
mirrors by returning the error. locate stands for the BeautifulSoup block
search soup.findAll("div", class gs_r). -/
def crawlLoop (fetch : Nat → Except FetchError (List Char)) (sel : Nat → Option (List Char))
    (locate : List Char → List Block) (urlOf : Nat → String) :
    List Nat → Columns → Except FetchError Columns
  | [], cols => Except.ok cols
  | off :: rest, cols =>
    match fetch off with
    | Except.error e => Except.error e
    | Except.ok body =>
      let body2 := if robotDetected body then
          match sel off with
          | some b => b
          | none => body
        else body
      crawlLoop fetch sel locate urlOf rest (processDivs (urlOf off) (locate body2) cols)

/-- The crawl of main (src/gs_search.py lines 252-309): iterate the offsets
range(0, number_of_results, 10), building each page URL from GSCHOLAR_MAIN_URL,
and accumulate the parsed columns. -/
def crawl (fetch : Nat → Except FetchError (List Char)) (sel : Nat → Option (List Char))
    (locate : List Char → List Block) (mainUrl : List Char) (keyword : String) (nresults : Nat) :
    Except FetchError Columns :=
  crawlLoop fetch sel locate (fun off => String.mk (pageUrl mainUrl off keyword))
    (offsetList nresults) initColumns

/-- One row of the ranked dataframe consumed by the downloader
(src/gs_search.py lines 350-357). -/
structure Row where
  author : String
  title : String
  citations : Int
  year : Int
  source : String
deriving DecidableEq

/-- isValidUrl (src/gs_search.py lines 368-372). -/
def isValidUrl (url : String) : Bool :=
  if containsSub ("Look manually at".data) url.data then false else true

/-- Download filename (src/gs_search.py lines 353-357):
citations_year_title.pdf. -/
def mkFilename (r : Row) : String :=
  toString r.citations ++ "_" ++ toString r.year ++ "_" ++ r.title ++ ".pdf"

/-- Download loop of main (src/gs_search.py lines 350-366) together with
download_pdf (lines 374-385): for each row, skip when isValidUrl rejects the
link, otherwise call download_pdf, which returns early on an empty filename
and otherwise issues exactly one urlretrieve. The result lists the URLs for
which a network retrieval is issued, in order. -/
def downloadCalls (rows : List Row) : List String :=
  rows.flatMap (fun r =>
    if isValidUrl r.source = false then []
    else if mkFilename r = "" then []
    else [r.source])

/-- Failure of the cit/year pipeline (src/gs_search.py lines 317-318): a
denominator of zero makes the float division produce a non-finite value, and
the subsequent astype(int) cannot convert it. -/
inductive PdError
  | nonFiniteToInt
deriving DecidableEq

/-- numpy round-half-to-even, the rounding used by Series.round(0)
(src/gs_search.py line 318). -/
def npRound (q : ℚ) : Int :=
  if q - ⌊q⌋ < 1/2 then ⌊q⌋
  else if 1/2 < q - ⌊q⌋ then ⌊q⌋ + 1
  else if 2 ∣ ⌊q⌋ then ⌊q⌋ else ⌊q⌋ + 1

/-- Per-record cit/year computation (src/gs_search.py lines 317-318):
Citations / (end_year + 1 - Year), rounded and cast to int, applied to every
record with no guard on the denominator. -/
def cit_per_year (end_year citations year : Int) : Except PdError Int :=
  let d := end_year + 1 - year
  if d = 0 then Except.error PdError.nonFiniteToInt
  else Except.ok (npRound ((citations : ℚ) / (d : ℚ)))

/-- The parsed command-line arguments (src/gs_search.py lines 69-93), with
argparse defaults as Lean field defaults; the empty string stands for a Python
falsy string or None. -/
structure Args where
  kw : String
  sortby : String := ""
  nresults : Int := 20
  csvpath : String := ""
  notsavecsv : Bool := false
  plotresults : Bool := false
  startyear : Int := 1980
  endyear : Int
  debug : Bool := false
  download : Bool := false
  archive : Bool := false
  publication : String := "arxiv"
deriving DecidableEq

/-- The tuple returned by get_command_line_args (src/gs_search.py line 136). -/
structure Config where
  keyword : String
  nresults : Int
  save_csv : Bool
  csvpath : String
  sortby : String
  plot_results : Bool
  start_year : Int
  end_year : Int
  debug : Bool
  archive : Bool
  publication : String
  download : Bool
deriving DecidableEq

/-- get_command_line_args (src/gs_search.py lines 66-136). The startup check
at lines 95-97 tests the Python truthiness of args.publication (any nonempty
string, including "all") together with args.archive and calls sys.exit(-1),
modelled as Except.error (-1); otherwise the variable assignments of lines
99-134 build the returned tuple. -/
def get_command_line_args (args : Args) : Except Int Config :=
  if args.publication ≠ "" ∧ args.archive then Except.error (-1)
  else Except.ok
    { keyword := args.kw
      nresults := args.nresults
      save_csv := !args.notsavecsv
      csvpath := if args.csvpath ≠ "" then args.csvpath else "."
      sortby := if args.sortby ≠ "" then args.sortby else "Citations"
      plot_results := args.plotresults
      start_year := args.startyear
      end_year := args.endyear
      debug := args.debug
      archive := args.archive
      publication := if args.publication ≠ "" then args.publication else ""
      download := args.download }

/-- Invariant tying a Columns value to the number of records appended so far:
all five record lists have that length and rank is exactly [0, 1, ..., n]. -/
def colsLen (c : Columns) (n : Nat) : Prop :=
  c.links.length = n ∧ c.titles.length = n ∧ c.citations.length = n ∧
    c.years.length = n ∧ c.authors.length = n ∧ c.rank = List.range (n + 1)

/-- Decidable test for whether any index of content starts an occurrence of
the get_citations marker. -/
def hasCitMarker (content : List Char) : Bool :=
  (List.range content.length).any (fun i => pySlice content (i : Int) ((i : Int) + 9) == citMarker)

/-! Helper lemmas about the embedded loops. -/

/-- The get_citations scan leaves its accumulator untouched over any index
range containing no marker occurrence. -/
theorem citLoop_skip (content : List Char) :
    ∀ (rem i : Nat) (out : Option (List Char)),
      (∀ j, i ≤ j → j < i + rem → pySlice content (j : Int) ((j : Int) + 9) ≠ citMarker) →
      citLoop content rem i out = Except.ok out := by
  intro rem
  induction rem with
  | zero => intro i out _; rfl
  | succ r ih =>
    intro i out h
    have hne := h i (Nat.le_refl i) (by omega)
    simp only [citLoop, if_neg hne]
    exact ih (i + 1) out (fun j h1 h2 => h j (by omega) (by omega))

/-- The get_year scan computes the slice window of the last dash recorded by
lastDashLoop. -/
theorem yearLoop_lastDash (content : List Char) :
    ∀ (rem i : Nat) (acc : Option Nat),
      yearLoop content rem i (acc.map fun j => pySlice content ((j : Int) - 5) ((j : Int) - 1)) =
        (lastDashLoop content rem i acc).map fun j => pySlice content ((j : Int) - 5) ((j : Int) - 1) := by
  intro rem
  induction rem with
  | zero => intro i acc; rfl
  | succ r ih =>
    intro i acc
    simp only [yearLoop, lastDashLoop]
    by_cases hd : content.getD i ' ' = '-'
    · rw [if_pos hd, if_pos hd]
      exact ih (i + 1) (some i)
    · rw [if_neg hd, if_neg hd]
      exact ih (i + 1) acc

/-- The get_author scan computes the slice window of the first dash recorded
by firstDashLoop. -/
theorem authorLoop_firstDash (content : List Char) :
    ∀ (rem i : Nat),
      authorLoop content rem i =
        (firstDashLoop content rem i).map fun j => pySlice content 2 ((j : Int) - 1) := by
  intro rem
  induction rem with
  | zero => intro i; rfl
  | succ r ih =>
    intro i
    simp only [authorLoop, firstDashLoop]
    by_cases hd : content.getD i ' ' = '-'
    · rw [if_pos hd, if_pos hd]; rfl
    · rw [if_neg hd, if_neg hd]; exact ih (i + 1)

/-- Formatting passes an ordinary character through unchanged. -/
theorem pyFormatList_cons_ne (c : Char) (rest : List Char) (args : List (List Char))
    (h : c ≠ '\x7b') : pyFormatList (c :: rest) args = c :: pyFormatList rest args := by
  simp [pyFormatList, h]

/-- Formatting substitutes the next argument at an empty-brace field. -/
theorem pyFormatList_field (rest : List Char) (a : List Char) (args : List (List Char)) :
    pyFormatList ('\x7b' :: '\x7d' :: rest) (a :: args) = a ++ pyFormatList rest args := rfl

/-- Formatting passes any brace-free prefix through unchanged. -/
theorem pyFormatList_nofield :
    ∀ (p : List Char), '\x7b' ∉ p → ∀ (rest : List Char) (args : List (List Char)),
      pyFormatList (p ++ rest) args = p ++ pyFormatList rest args := by
  intro p
  induction p with
  | nil => intro _ rest args; rfl
  | cons c p ih =>
    intro h rest args
    have hc : c ≠ '\x7b' := fun hcc => h (hcc ▸ List.mem_cons_self c p)
    rw [List.cons_append, pyFormatList_cons_ne c (p ++ rest) args hc,
        ih (fun hp => h (List.mem_cons_of_mem c hp)) rest args, List.cons_append]

/-- The rank list [0, 1, ..., n] ends in n. -/
theorem range_getLastD (n : Nat) : (List.range (n + 1)).getLastD 0 = n := by
  rw [List.range_succ, List.getLastD_eq_getLast?, List.getLast?_concat]
  rfl

/-- Processing one block appends exactly one element to every record list and
extends the rank list by its last value plus one. -/
theorem colsLen_processDiv (u : String) (b : Block) (c : Columns) (n : Nat)
    (h : colsLen c n) : colsLen (processDiv u b c) (n + 1) := by
  obtain ⟨h1, h2, h3, h4, h5, h6⟩ := h
  refine ⟨?_, ?_, ?_, ?_, ?_, ?_⟩
  · simp [processDiv, h1]
  · simp [processDiv, h2]
  · simp [processDiv, h3]
  · simp [processDiv, h4]
  · simp [processDiv, h5]
  · show c.rank ++ [c.rank.getLastD 0 + 1] = List.range (n + 1 + 1)
    rw [h6, range_getLastD, ← List.range_succ]

/-- Processing the blocks of one page preserves the column invariant, adding
one record per block. -/
theorem colsLen_processDivs (u : String) :
    ∀ (bs : List Block) (c : Columns) (n : Nat), colsLen c n →
      colsLen (processDivs u bs c) (n + bs.length) := by
  intro bs
  induction bs with
  | nil => intro c n h; simpa [processDivs] using h
  | cons b bs ih =>
    intro c n h
    have h2 := ih (processDiv u b c) (n + 1) (colsLen_processDiv u b c n h)
    have heq : n + (b :: bs).length = n + 1 + bs.length := by simp [List.length_cons]; omega
    rw [heq]
    exact h2

/-- Aggregating a whole crawl produces columns of length totalBlocks with rank
list [0, 1, ..., totalBlocks]. -/
theorem colsLen_aggregatePages :
    ∀ (pages : List (String × List Block)), colsLen (aggregatePages pages) (totalBlocks pages) := by
  suffices h : ∀ (pages : List (String × List Block)) (c : Columns) (n : Nat), colsLen c n →
      colsLen (pages.foldl (fun c p => processDivs p.1 p.2 c) c) (n + totalBlocks pages) by
    intro pages
    have h0 : colsLen initColumns 0 := ⟨rfl, rfl, rfl, rfl, rfl, rfl⟩
    simpa [aggregatePages] using h pages initColumns 0 h0
  intro pages
  induction pages with
  | nil => intro c n h; simpa [totalBlocks] using h
  | cons p ps ih =>
    intro c n h
    have h2 := ih (processDivs p.1 p.2 c) (n + p.2.length) (colsLen_processDivs p.1 p.2 c n h)
    have heq : n + totalBlocks (p :: ps) = n + p.2.length + totalBlocks ps := by
      simp [totalBlocks]; omega
    rw [heq]
    exact h2

/-- A fetch error at any offset of the loop makes the whole loop return an
error: the source has no try/except around session.get. -/
theorem crawlLoop_error_of_mem (fetch : Nat → Except FetchError (List Char))
    (sel : Nat → Option (List Char)) (locate : List Char → List Block) (urlOf : Nat → String) :
    ∀ (offs : List Nat) (cols : Columns),
      (∃ off ∈ offs, ∃ e, fetch off = Except.error e) →
      ∃ e, crawlLoop fetch sel locate urlOf offs cols = Except.error e := by
  intro offs
  induction offs with
  | nil => intro cols h; simp at h
  | cons o rest ih =>
    intro cols h
    cases hf : fetch o with
    | error e =>
      exact ⟨e, by simp only [crawlLoop, hf]⟩
    | ok body =>
      obtain ⟨off, hmem, e, he⟩ := h
      have hoff : off ∈ rest := by
        rcases List.mem_cons.mp hmem with h1 | h1
        · subst h1; rw [hf] at he; cases he
        · exact h1
      simp only [crawlLoop, hf]
      exact ih _ ⟨off, hoff, e, he⟩

/-- Every URL the download loop actually retrieves passed isValidUrl. -/
theorem downloadCalls_valid :
    ∀ (rows : List Row) (u : String), u ∈ downloadCalls rows → isValidUrl u = true := by
  intro rows u hu
  unfold downloadCalls at hu
  rw [List.mem_flatMap] at hu
  obtain ⟨r, _, hr⟩ := hu
  by_cases hv : isValidUrl r.source = false
  · rw [if_pos hv] at hr; cases hr
  · rw [if_neg hv] at hr
    by_cases hf : mkFilename r = ""
    · rw [if_pos hf] at hr; cases hr
    · rw [if_neg hf] at hr
      rw [List.mem_singleton] at hr
      subst hr
      cases hb : isValidUrl r.source with
      | false => exact absurd hb hv
      | true => rfl

/-- Every look-up-manually sentinel contains the marker isValidUrl rejects. -/
theorem sentinel_contains (page : String) :
    containsSub ("Look manually at".data) (("Look manually at: " ++ page).data) = true := by
  unfold containsSub
  rw [List.any_eq_true]
  refine ⟨("Look manually at: " ++ page).data, (List.mem_tails _ _).mpr (List.suffix_refl _), ?_⟩
  have hpr : ("Look manually at".data) <+: (("Look manually at: " ++ page).data) := by
    rw [String.data_append]
    rw [show ("Look manually at: ").data = ("Look manually at").data ++ (": ").data from by decide]
    rw [List.append_assoc]
    exact List.prefix_append _ _
  exact List.isPrefixOf_iff_prefix.mpr hpr

/-! Claim theorems. -/

/-- C1, counterexample: the claim says a transport-level failure of a single
page fetch is non-fatal and the crawl returns the records of the remaining
pages. Concretely, with 20 requested results the crawl visits offsets 0 and
10; when the fetch at offset 0 raises a transport error while the page at
offset 10 would parse to one record (second conjunct), the crawl nevertheless
returns the error and produces no records at all, because main wraps no
try/except around session.get. -/
theorem c1_counterexample :
    crawl (fun off => if off = 0 then Except.error FetchError.transport else Except.ok ("GOODPAGE".data))
      (fun _ => none)
      (fun body => if body = "GOODPAGE".data then [⟨some "http://x/a", some "T", none, none⟩] else [])
      GSCHOLAR_URL "kw" 20 = Except.error FetchError.transport ∧
    (processDivs "u" [⟨some "http://x/a", some "T", none, none⟩] initColumns).links.length = 1 :=
  ⟨rfl, rfl⟩

/-- C1, amended: a transport-level failure of the direct fetch of any page in
the crawl is fatal: the orchestrator does not catch it, so the crawl aborts
with the error and yields no records. Only a failure of the selenium fallback
after robot detection is caught, logged and survived. -/
theorem c1_fetch_failure_aborts (fetch : Nat → Except FetchError (List Char))
    (sel : Nat → Option (List Char)) (locate : List Char → List Block)
    (mainUrl : List Char) (keyword : String) (nresults : Nat)
    (h : ∃ off ∈ offsetList nresults, ∃ e, fetch off = Except.error e) :
    ∃ e, crawl fetch sel locate mainUrl keyword nresults = Except.error e := by
  unfold crawl
  exact crawlLoop_error_of_mem fetch sel locate _ (offsetList nresults) initColumns h

/-- C1, witness for the amended theorem at a concrete crawl. -/
theorem c1_fetch_failure_aborts_witness :
    ∃ e, crawl (fun off => if off = 0 then Except.error FetchError.transport else Except.ok ("GOODPAGE".data))
      (fun _ => none) (fun _ => []) GSCHOLAR_URL "kw" 20 = Except.error e :=
  c1_fetch_failure_aborts _ _ _ _ _ _ ⟨0, by decide, FetchError.transport, rfl⟩

/-- C2: the cit/year computation of main lines 317-318 applies
Citations / (end_year + 1 - Year) to every record with no guard: a record
whose Year equals end_year + 1 gives denominator zero and the pipeline fails
(the float division yields a non-finite value that astype(int) cannot
convert), and a record whose Year exceeds end_year + 1 is divided by a
negative denominator, also unguarded. -/
theorem c2_unguarded_denominator :
    (∀ end_year c : Int, cit_per_year end_year c (end_year + 1) = Except.error PdError.nonFiniteToInt) ∧
    (∀ end_year : Int, cit_per_year end_year 10 (end_year + 2) = Except.ok (-10)) := by
  constructor
  · intro ey c
    simp only [cit_per_year]
    rw [if_pos (by ring : (ey + 1 - (ey + 1) : Int) = 0)]
  · intro ey
    simp only [cit_per_year]
    rw [show (ey + 1 - (ey + 2) : Int) = -1 from by ring]
    rw [if_neg (by norm_num : ¬ (-1 : Int) = 0)]
    rw [show ((10 : Int) : ℚ) / ((-1 : Int) : ℚ) = -10 from by push_cast; norm_num]
    rw [show npRound (-10 : ℚ) = -10 from by norm_num [npRound]]

/-- C3, counterexample: the claim says extractCitationCount fails with
NotFound on a fragment without the marker, but get_citations on the very
fragment of the spec example returns the value 0 instead of failing. -/
theorem c3_counterexample :
    get_citations ("no marker here".data) = Except.ok 0 ∧
    get_citations ("no marker here".data) ≠ Except.error ExtractError.notFound :=
  ⟨rfl, fun h => Except.noConfusion h⟩

/-- C3, amended: for a fragment containing the marker with well-formed
trailing digits, get_citations returns the decimal integer after the last
occurrence up to the next angle-bracket delimiter (the spec example yields 42,
and the last of two occurrences wins); for every fragment in which the marker
is absent it returns 0, the initial accumulator, rather than failing. -/
theorem c3_amended :
    (∀ content : List Char, hasCitMarker content = false → get_citations content = Except.ok 0) ∧
    get_citations ("... Cited by 42<".data) = Except.ok 42 ∧
    get_citations ("Cited by 7< Cited by 42<".data) = Except.ok 42 := by
  refine ⟨?_, rfl, rfl⟩
  intro content h
  have hall : ∀ j, j < content.length → pySlice content (j : Int) ((j : Int) + 9) ≠ citMarker := by
    intro j hj hc
    have hany : (List.range content.length).any
        (fun i => pySlice content (i : Int) ((i : Int) + 9) == citMarker) = true :=
      List.any_eq_true.mpr ⟨j, List.mem_range.mpr hj, by simp [hc]⟩
    unfold hasCitMarker at h
    rw [hany] at h
    cases h
  unfold get_citations
  rw [citLoop_skip content content.length 0 none (fun j _ h2 => hall j (by omega))]

/-- C3, witness for the amended theorem at a concrete marker-free fragment. -/
theorem c3_witness : get_citations ("xyz".data) = Except.ok 0 :=
  c3_amended.1 ("xyz".data) rfl

/-- C4, counterexample: on the fragment abc2019-x the four characters
immediately preceding the last dash are 2019, all digits, so the claim
requires the year 2019; get_year instead reads the window two positions
earlier, c201, and returns 0. -/
theorem c4_counterexample :
    extractYearClaim ("abc2019-x".data) = Except.ok 2019 ∧
    get_year ("abc2019-x".data) = Except.ok 0 :=
  ⟨rfl, rfl⟩

/-- C4, amended: for every fragment containing a dash, get_year reads the
four-character window ENDING TWO positions before the last dash, the Python
slice content from index i-5 to index i-1 (with negative-index wrap-around),
returning its number when all digits and 0 otherwise; the spec example still
yields 2019 because a space separates the year from the dash there; a
fragment with no dash fails (NotFound, an unbound local in the source). -/
theorem c4_amended :
    (∀ (content : List Char) (i : Nat), lastDashIdx content = some i →
        get_year content = Except.ok (yearOfWindow (pySlice content ((i : Int) - 5) ((i : Int) - 1)))) ∧
    (∀ content : List Char, lastDashIdx content = none →
        get_year content = Except.error ExtractError.notFound) ∧
    get_year ("J Smith - Journal of X - 2019 - publisher".data) = Except.ok 2019 := by
  have key : ∀ content : List Char,
      yearLoop content content.length 0 none =
        (lastDashIdx content).map fun j => pySlice content ((j : Int) - 5) ((j : Int) - 1) :=
    fun content => yearLoop_lastDash content content.length 0 none
  refine ⟨?_, ?_, rfl⟩
  · intro content i h
    unfold get_year
    rw [key content, h]
    rfl
  · intro content h
    unfold get_year
    rw [key content, h]
    rfl

/-- C4, witness for the amended theorem at a concrete dash-free fragment. -/
theorem c4_witness : get_year ("year absent".data) = Except.error ExtractError.notFound :=
  c4_amended.2.1 ("year absent".data) rfl

/-- C5, counterexample: on the fragment abc- the substring from offset 2 up to
but excluding the first dash is the one-letter string c, which the claim
requires; get_author instead stops one position earlier and returns the empty
string. -/
theorem c5_counterexample :
    extractAuthorClaim ("abc-".data) = Except.ok ("c".data) ∧
    get_author ("abc-".data) = Except.ok [] :=
  ⟨rfl, rfl⟩

/-- C5, amended: for every fragment containing a dash, get_author returns the
substring from offset 2 up to but excluding position i-1 where i is the index
of the FIRST dash, i.e. the Python slice content from 2 to i-1 (dropping the
character just before the dash, with negative-index wrap-around when the dash
is at index 0); a fragment with no dash fails (NotFound, an unbound local in
the source). -/
theorem c5_amended :
    (∀ (content : List Char) (i : Nat), firstDashIdx content = some i →
        get_author content = Except.ok (pySlice content 2 ((i : Int) - 1))) ∧
    (∀ content : List Char, firstDashIdx content = none →
        get_author content = Except.error ExtractError.notFound) := by
  have key : ∀ content : List Char,
      authorLoop content content.length 0 =
        (firstDashIdx content).map fun j => pySlice content 2 ((j : Int) - 1) :=
    fun content => authorLoop_firstDash content content.length 0
  refine ⟨?_, ?_⟩
  · intro content i h
    unfold get_author
    rw [key content, h]
    rfl
  · intro content h
    unfold get_author
    rw [key content, h]
    rfl

/-- C5, witness for the amended theorem at a concrete byline fragment, whose
first dash sits at index 8 and whose extracted window is indices 2 to 6. -/
theorem c5_witness :
    get_author ("J Smith - J".data) = Except.ok (pySlice ("J Smith - J".data) 2 ((8 : Int) - 1)) :=
  c5_amended.1 ("J Smith - J".data) 8 rfl

/-- C6: for any sequence of fetched pages with any numbers of located result
blocks per page (including zero), every located block contributes exactly one
entry to each of the five record lists, and the rank index list (the rank
accumulator without its seed 0) is exactly 1, 2, ..., N in fetch order, where
N is the total number of blocks: strictly increasing by one, starting at 1,
unique, with no gaps. -/
theorem c6_rank_invariant (pages : List (String × List Block)) :
    (aggregatePages pages).rank = List.range (totalBlocks pages + 1) ∧
    (aggregatePages pages).rank.drop 1 = List.range' 1 (totalBlocks pages) ∧
    (aggregatePages pages).links.length = totalBlocks pages ∧
    (aggregatePages pages).titles.length = totalBlocks pages ∧
    (aggregatePages pages).citations.length = totalBlocks pages ∧
    (aggregatePages pages).years.length = totalBlocks pages ∧
    (aggregatePages pages).authors.length = totalBlocks pages := by
  obtain ⟨h1, h2, h3, h4, h5, h6⟩ := colsLen_aggregatePages pages
  refine ⟨h6, ?_, h1, h2, h3, h4, h5⟩
  rw [h6, List.range_succ_eq_map, List.range'_eq_map_range]
  simp only [List.drop_succ_cons, List.drop_zero]
  refine List.map_congr_left ?_
  intro a _
  omega

/-- C7: get_element drops the result of its recursive retry (the source never
returns the recursive call), so when the first lookup attempt fails and the
second succeeds the caller receives None instead of the found element; only a
success of the very first attempt is returned. The claim that any successful
retry hands the element to the caller is contradicted by the first conjunct. -/
theorem c7_retry_result_discarded :
    get_element (fun k => if k = 0 then none else some 42) 5 0 = none ∧
    get_element (fun _ : Nat => some 42) 5 0 = some 42 :=
  ⟨rfl, rfl⟩

/-- C8: the document download loop never issues a network retrieval for a
record whose link is the look-up-manually sentinel: every URL it retrieves
passes isValidUrl, and any row whose source is the sentinel string built at
parse time is skipped. -/
theorem c8_sentinel_skipped :
    (∀ (rows : List Row) (u : String), u ∈ downloadCalls rows → isValidUrl u = true) ∧
    (∀ (rows : List Row) (page : String) (r : Row), r ∈ rows →
        r.source = "Look manually at: " ++ page → r.source ∉ downloadCalls rows) := by
  refine ⟨downloadCalls_valid, ?_⟩
  intro rows page r _ hs hmem
  have hv := downloadCalls_valid rows r.source hmem
  rw [hs] at hv
  unfold isValidUrl at hv
  rw [if_pos (sentinel_contains page)] at hv
  cases hv

/-- C8, witness: a concrete two-row table in which the sentinel row is never
retrieved. -/
theorem c8_witness :
    ("Look manually at: " ++ "http://page" : String) ∉
      downloadCalls [Row.mk "A" "T" 3 2020 "http://x/a.pdf",
        Row.mk "B" "U" 1 2019 ("Look manually at: " ++ "http://page")] :=
  c8_sentinel_skipped.2 _ "http://page" (Row.mk "B" "U" 1 2019 ("Look manually at: " ++ "http://page"))
    (List.mem_cons_of_mem _ (List.mem_cons_self _ _)) rfl

/-- C9, counterexample: with the default configuration (live mode, publication
filter arxiv, start year 1980, end year equal to the current year) the page
URL for offset 0 and keyword test carries the keyword in the parameter as_q,
and no parameter named q occurs anywhere in it, contradicting the claimed
template for live mode. -/
theorem c9_counterexample :
    pageUrl (gscholarMainUrl false "arxiv" 1980 2025 2025) 0 "test" =
      ("https://scholar.google.com/scholar?start=0&as_q=test&hl=en&as_sdt=0,5&as_publication=arxiv&as_ylo=1980").data ∧
    containsSub ("&q=".data) (pageUrl (gscholarMainUrl false "arxiv" 1980 2025 2025) 0 "test") = false ∧
    containsSub ("?q=".data) (pageUrl (gscholarMainUrl false "arxiv" 1980 2025 2025) 0 "test") = false ∧
    containsSub ("&as_q=test".data) (pageUrl (gscholarMainUrl false "arxiv" 1980 2025 2025) 0 "test") = true :=
  ⟨rfl, rfl, rfl, rfl⟩

/-- C9, amended: in the suffix-free configuration, every fetched listing URL
is start=offset, then the keyword with spaces replaced by plus signs, then
hl=en and as_sdt=0,5 on the respective base endpoint; but the keyword
parameter is named as_q in live mode and q only in archive mode. -/
theorem c9_amended (n : Nat) (kw : String) (now_year : Int) :
    pageUrl (gscholarMainUrl false "" 0 now_year now_year) n kw =
      ("https://scholar.google.com/scholar?start=".data ++ (toString n).data ++
        "&as_q=".data ++ plusEncode kw ++ "&hl=en&as_sdt=0,5".data) ∧
    pageUrl (gscholarMainUrl true "" 0 now_year now_year) n kw =
      ("https://web.archive.org/web/20210314203256/https://scholar.google.com/scholar?start=".data ++
        (toString n).data ++ "&q=".data ++ plusEncode kw ++ "&hl=en&as_sdt=0,5".data) := by
  constructor
  · have hlive : gscholarMainUrl false "" 0 now_year now_year = GSCHOLAR_URL := by
      simp [gscholarMainUrl]
    have hsplit : GSCHOLAR_URL =
        "https://scholar.google.com/scholar?start=".data ++
          '\x7b' :: '\x7d' :: ("&as_q=".data ++ '\x7b' :: '\x7d' :: "&hl=en&as_sdt=0,5".data) := by
      decide
    unfold pageUrl
    rw [hlive, hsplit]
    rw [pyFormatList_nofield _ (by decide) _ _]
    rw [pyFormatList_field]
    rw [pyFormatList_nofield _ (by decide) _ _]
    rw [pyFormatList_field]
    rw [show pyFormatList ("&hl=en&as_sdt=0,5".data) ([] : List (List Char)) = "&hl=en&as_sdt=0,5".data from rfl]
    simp [List.append_assoc]
  · have harch : gscholarMainUrl true "" 0 now_year now_year = ARCHIVE_URL := by
      simp [gscholarMainUrl]
    have hsplit : ARCHIVE_URL =
        "https://web.archive.org/web/20210314203256/https://scholar.google.com/scholar?start=".data ++
          '\x7b' :: '\x7d' :: ("&q=".data ++ '\x7b' :: '\x7d' :: "&hl=en&as_sdt=0,5".data) := by
      decide
    unfold pageUrl
    rw [harch, hsplit]
    rw [pyFormatList_nofield _ (by decide) _ _]
    rw [pyFormatList_field]
    rw [pyFormatList_nofield _ (by decide) _ _]
    rw [pyFormatList_field]
    rw [show pyFormatList ("&hl=en&as_sdt=0,5".data) ([] : List (List Char)) = "&hl=en&as_sdt=0,5".data from rfl]
    simp [List.append_assoc]

/-- C10: because the publication filter defaults to arxiv (third conjunct) and
the startup check of get_command_line_args tests only Python truthiness of
the publication value, the process exits with code -1 whenever the archive
flag is requested together with any nonempty publication value, including
all; only an explicitly empty publication string lets an archive run
proceed. -/
theorem c10_archive_conflict :
    (∀ args : Args, args.archive = true → args.publication ≠ "" →
        get_command_line_args args = Except.error (-1)) ∧
    (∀ args : Args, args.archive = true → args.publication = "" →
        ∃ cfg : Config, get_command_line_args args = Except.ok cfg) ∧
    (∀ (kw : String) (ey : Int), (({ kw := kw, endyear := ey } : Args)).publication = "arxiv") := by
  refine ⟨?_, ?_, fun kw ey => rfl⟩
  · intro args ha hp
    unfold get_command_line_args
    rw [if_pos ⟨hp, ha⟩]
  · intro args ha hp
    unfold get_command_line_args
    rw [if_neg (fun hcon => hcon.1 hp)]
    exact ⟨_, rfl⟩

/-- C10, witness: requesting archive mode with the publication filter set to
all (which the spec says disables the filter) still exits with code -1. -/
theorem c10_witness :
    get_command_line_args { kw := "machine learning", endyear := 2025, archive := true, publication := "all" } =
      Except.error (-1) :=
  c10_archive_conflict.1 _ rfl (by decide)
